import Mathlib

/-
Shallow embedding of the thryx-backend upload gateway (src/app.js).

The embedded functions mirror, line for line, the three pieces of decision
logic in src/app.js:
  * shouldUseMemoryStorage (lines 54-74): the storage selector, reading a
    memory sample and a declared file size;
  * adaptiveUpload (lines 88-107): content-length parsing, multer limits
    and the multer-error response branch;
  * the POST /upload handler (lines 132-172): temp-file materialization,
    the relay/timeout race, the success response, the catch block, and the
    cleanup actions on each path.

Modelling conventions:
  * JavaScript numbers arising from parseInt are modelled by JsNum: either
    NaN or an exact rational.  Every comparison the code performs on them
    (strict >) is preserved; NaN compares false, as in JavaScript.  The
    memory usage ratio is modelled as an exact rational; the constants
    involved (15*1024*1024 and 0.8) and the strict comparisons make the
    rational model agree with IEEE double semantics on all inputs with
    positive total memory.
  * Throwing calls (os.freemem/os.totalmem, fs.unlinkSync) are modelled by
    oracles: the probe is an Option MemSample (none = the os call threw,
    landing in the catch of lines 69-73), and unlink success is a
    per-path Boolean oracle (false = fs.unlinkSync threw for that path).
  * The filesystem is the list of paths currently present in the uploads
    directory; fs.writeFileSync appends, a successful fs.unlinkSync erases.
  * The external relay call raced against the 180 s timer (lines 147-154)
    is an oracle RelayOutcome: it resolves with provider metadata, rejects
    with an error message, or loses the race to the timeout, in which case
    the rejecting promise carries the message "Gemini API upload timeout"
    (line 152).
-/

namespace Thryx

/-- A JavaScript number as produced by parseInt: NaN or an exact value. -/
inductive JsNum where
  | nan : JsNum
  | num : ℚ → JsNum
deriving DecidableEq

/-- JavaScript strict comparison `x > c` on a parsed number: NaN compares
false against everything, as in JavaScript. -/
def jsGt : JsNum → ℚ → Bool
  | .nan, _ => false
  | .num x, c => decide (x > c)

/-- One successful sample of os.freemem() and os.totalmem() (line 56-57). -/
structure MemSample where
  freeMem : ℚ
  totalMem : ℚ
deriving DecidableEq

/-- MEMORY_THRESHOLD = 0.8 (line 50). -/
def MEMORY_THRESHOLD : ℚ := 8 / 10

/-- The memory usage fraction computed at line 58: 1 - freeMem / totalMem. -/
def memUsage (s : MemSample) : ℚ := 1 - s.freeMem / s.totalMem

/-- shouldUseMemoryStorage (lines 54-74).  The probe argument is the joint
outcome of the os.freemem()/os.totalmem() calls: `some s` when they return
sample `s`, `none` when they throw, which the code catches at lines 69-73
and answers `false` (disk).  Returns `true` for memory storage, `false`
for disk storage. -/
def shouldUseMemoryStorage (probe : Option MemSample) (fileSize : JsNum) : Bool :=
  match probe with
  | none => false
  | some s =>
    if jsGt fileSize (15 * 1024 * 1024) || decide (memUsage s > MEMORY_THRESHOLD) then
      false
    else
      true

/-- Digit string to natural number, radix 10. -/
def digitsToNat (ds : List Char) : Nat :=
  ds.foldl (fun acc c => acc * 10 + (c.toNat - ('0').toNat)) 0

/-- JavaScript parseInt with the default radix, as applied to a header
value (line 90): skip leading whitespace, read an optional sign, then the
longest prefix of decimal digits; if that prefix is empty the result is
NaN.  (The hexadecimal 0x form accepted by parseInt is not modelled; no
claim depends on it.) -/
def parseIntJs (s : String) : JsNum :=
  let cs := s.data.dropWhile (fun c => c = ' ' || c = '\t' || c = '\n' || c = '\r')
  let signed : ℚ × List Char :=
    match cs with
    | '-' :: t => (-1, t)
    | '+' :: t => (1, t)
    | _ => (1, cs)
  let ds := signed.2.takeWhile Char.isDigit
  if ds.isEmpty then JsNum.nan
  else JsNum.num (signed.1 * (digitsToNat ds : ℚ))

/-- Declared size computed by adaptiveUpload (lines 89-90):
`req.headers['content-length'] ? parseInt(...) : 0`.  `none` is an absent
header; `some ""` is a present but empty header value, which is falsy in
JavaScript and therefore also yields 0 without being parsed. -/
def declaredSize (contentLength : Option String) : JsNum :=
  match contentLength with
  | none => JsNum.num 0
  | some raw => if raw = "" then JsNum.num 0 else parseIntJs raw

/-- The limits object passed to multer (lines 94-97). -/
structure MulterLimits where
  fileSize : Nat
  files : Nat
deriving DecidableEq

/-- limits: fileSize 50*1024*1024, files 1 (lines 94-97). -/
def uploadLimits : MulterLimits := ⟨50 * 1024 * 1024, 1⟩

/-- The two multer limit errors relevant to the configured limits. -/
inductive MulterError where
  | fileTooLarge
  | tooManyFiles
deriving DecidableEq

/-- The message carried by each multer limit error, as issued by the
multer library (LIMIT_FILE_SIZE and LIMIT_FILE_COUNT). -/
def MulterError.message : MulterError → String
  | .fileTooLarge => "File too large"
  | .tooManyFiles => "Too many files"

/-- Limit enforcement of the multer/busboy libraries under the options of
lines 92-98, modelled from their documented behaviour: a request whose
file count exceeds limits.files is aborted with LIMIT_FILE_COUNT, and a
file whose size exceeds limits.fileSize aborts with LIMIT_FILE_SIZE.  The
argument is the list of sizes of the files in the multipart body. -/
def multerCheck (limits : MulterLimits) (fileSizes : List Nat) : Option MulterError :=
  if limits.files < fileSizes.length then some .tooManyFiles
  else if fileSizes.any (fun s => decide (s > limits.fileSize)) then some .fileTooLarge
  else none

/-- The JSON bodies the app sends: `{error}` (lines 101, 103, 135),
`{message, metadata}` (lines 156-159), and
`{error, details, storageType}` (lines 163-167).  `α` is the type of the
opaque provider metadata object. -/
inductive Body (α : Type) where
  | errJson (error : String)
  | okJson (message : String) (metadata : α)
  | failJson (error : String) (details : String) (storageType : String)
deriving DecidableEq

/-- An HTTP response: status code and JSON body. -/
structure Response (α : Type) where
  status : Nat
  body : Body α
deriving DecidableEq

/-- The adaptiveUpload error branch (lines 100-104) applied to the multer
outcome for a request with the given file sizes: `some` a 400 response
when multer reports a limit error (line 101), `none` when the middleware
calls next(). -/
def adaptiveUploadResult (α : Type) (fileSizes : List Nat) : Option (Response α) :=
  match multerCheck uploadLimits fileSizes with
  | some e => some ⟨400, .errJson ("Multer error: " ++ e.message)⟩
  | none => none

/-- req.file as the handler sees it: original name, MIME type, and, in
disk mode, the path multer wrote (req.file.path); memory mode carries a
buffer and no path. -/
structure ReqFile where
  originalname : String
  mimetype : String
  path : Option String
deriving DecidableEq

/-- Outcome of `Promise.race([uploadPromise, timeoutPromise])`
(lines 147-154): the relay resolves with metadata, rejects with an error
message, or the 180 s timer wins and rejects with
"Gemini API upload timeout" (line 152). -/
inductive RelayOutcome (α : Type) where
  | resolved (metadata : α)
  | rejected (msg : String)
  | timeout
deriving DecidableEq

/-- Result of one run of the /upload handler: the response sent, the
final contents of the uploads directory, and whether the relay call was
initiated. -/
structure HandlerResult (α : Type) where
  response : Response α
  fs : List String
  relayCalled : Bool
deriving DecidableEq

/-- tempFilePath (lines 137-145): in memory mode the materialization path
`temp-<timestamp>-<originalname>` (line 141), in disk mode req.file.path
(line 144). -/
def tempPathOf (useMem : Bool) (f : ReqFile) (ts : Nat) : String :=
  if useMem then "temp-" ++ toString ts ++ "-" ++ f.originalname
  else f.path.getD ""

/-- The 500 response built in the catch block (lines 163-167). -/
def catchResponse (α : Type) (useMem : Bool) (errMsg : String) : Response α :=
  ⟨500, .failJson "File upload failed" errMsg (if useMem then "memory" else "disk")⟩

/-- The cleanup attempted in the catch block (lines 168-170): only when a
file is present, disk mode was used and req.file.path exists is
fs.unlinkSync tried, and its own failure is swallowed (line 169). -/
def catchCleanup (useMem : Bool) (f : Option ReqFile) (unlinkOk : String → Bool)
    (fs : List String) : List String :=
  match f with
  | none => fs
  | some fl =>
    if useMem then fs
    else
      match fl.path with
      | some p => if unlinkOk p then fs.erase p else fs
      | none => fs

/-- The POST /upload handler (lines 132-172).

Arguments: `useMem` is the global useMemoryStorage flag set by
adaptiveUpload for this request; `file` is req.file (`none`: no file
uploaded); `ts` is the Date.now() timestamp used in the temp name;
`relay` is the outcome of the relay/timeout race; `unlinkOk p` tells
whether fs.unlinkSync(p) succeeds or throws; `unlinkErrMsg` is the
message of the error thrown by a failing unlink; `fs0` is the uploads
directory content when the handler starts (in disk mode it already holds
req.file.path, written by multer).

Control flow mirrors the source: no file means an immediate 400
(lines 134-136); memory mode first writes the buffer to tempFilePath
(lines 139-142); a resolved race unlinks tempFilePath and, if that unlink
throws, falls into the catch block with the unlink error (lines 154-159
inside the try of line 133); a rejected or timed-out race goes to the
catch block with the corresponding message; the catch block sends the 500
and then attempts the disk-mode-only cleanup (lines 160-171). -/
def uploadHandler {α : Type} (useMem : Bool) (file : Option ReqFile) (ts : Nat)
    (relay : RelayOutcome α) (unlinkOk : String → Bool) (unlinkErrMsg : String)
    (fs0 : List String) : HandlerResult α :=
  match file with
  | none => ⟨⟨400, .errJson "No file uploaded"⟩, fs0, false⟩
  | some f =>
    let tempFilePath := tempPathOf useMem f ts
    let fs1 := if useMem then fs0 ++ [tempFilePath] else fs0
    match relay with
    | .resolved md =>
      if unlinkOk tempFilePath then
        ⟨⟨200, .okJson "File uploaded to Gemini Files API" md⟩, fs1.erase tempFilePath, true⟩
      else
        ⟨catchResponse α useMem unlinkErrMsg, catchCleanup useMem (some f) unlinkOk fs1, true⟩
    | .rejected msg =>
      ⟨catchResponse α useMem msg, catchCleanup useMem (some f) unlinkOk fs1, true⟩
    | .timeout =>
      ⟨catchResponse α useMem "Gemini API upload timeout",
        catchCleanup useMem (some f) unlinkOk fs1, true⟩

/-- C4: if reading the host memory statistics throws (probe = none), the
selector returns disk storage (false) for every declared size, recovering
the probe failure locally: the embedded selector is total, mirroring the
catch at lines 69-73 that converts the thrown error into the return value
false instead of propagating it. -/
theorem selector_probe_failure_disk (fileSize : JsNum) :
    shouldUseMemoryStorage none fileSize = false := rfl

/-- C2: for every declared size and every successful memory sample with
positive total memory, the selector returns memory storage exactly when
the size is at most 15 MiB (15728640 bytes) and the usage fraction is at
most 0.8; both comparisons in the source are strict, so the exact
boundary values resolve to memory storage.  (The positivity hypothesis
marks the domain on which the rational model of the JavaScript float
arithmetic is faithful; the proof does not otherwise use it.) -/
theorem selector_decision (size : ℚ) (s : MemSample) (ht : 0 < s.totalMem) :
    shouldUseMemoryStorage (some s) (JsNum.num size) =
      (decide (size ≤ 15 * 1024 * 1024) && decide (memUsage s ≤ MEMORY_THRESHOLD)) := by
  by_cases h1 : size ≤ 15 * 1024 * 1024 <;>
    by_cases h2 : memUsage s ≤ MEMORY_THRESHOLD <;>
      simp_all [shouldUseMemoryStorage, jsGt, not_le]

theorem selector_decision_witness :
    (0 : ℚ) < (⟨500, 1000⟩ : MemSample).totalMem ∧
    shouldUseMemoryStorage (some ⟨500, 1000⟩) (JsNum.num (15 * 1024 * 1024)) =
      (decide ((15 * 1024 * 1024 : ℚ) ≤ 15 * 1024 * 1024) &&
        decide (memUsage ⟨500, 1000⟩ ≤ MEMORY_THRESHOLD)) :=
  ⟨by norm_num, selector_decision (15 * 1024 * 1024) ⟨500, 1000⟩ (by norm_num)⟩

/-- C6 counterexample: the claim asserts that every declared size strictly
greater than 15000000 bytes forces disk storage; at size 15000001 with a
successful sample of usage fraction 1/2 the selector returns true
(memory), because the source threshold at line 64 is 15*1024*1024 =
15728640, not 15000000. -/
theorem selector_boundary_cex :
    shouldUseMemoryStorage (some ⟨500, 1000⟩) (JsNum.num 15000001) = true := by
  norm_num [shouldUseMemoryStorage, jsGt, memUsage, MEMORY_THRESHOLD]

/-- C6 amended: for every declared size strictly greater than
15*1024*1024 = 15728640 bytes, the selector returns disk storage (false)
whatever the memory sample, in particular even when the usage fraction is
at most 0.8. -/
theorem selector_large_size_disk (size : ℚ) (s : MemSample)
    (h : 15 * 1024 * 1024 < size) :
    shouldUseMemoryStorage (some s) (JsNum.num size) = false := by
  simp [shouldUseMemoryStorage, jsGt, h]

theorem selector_large_size_disk_witness :
    (15 * 1024 * 1024 : ℚ) < 15728641 ∧
    shouldUseMemoryStorage (some ⟨500, 1000⟩) (JsNum.num 15728641) = false :=
  ⟨by norm_num, selector_large_size_disk 15728641 ⟨500, 1000⟩ (by norm_num)⟩

/-- C1: evaluation of the handler at the failing input.  A memory-mode
request (file doc.pdf, timestamp 1000) whose relay call rejects leaves
the materialized temp file temp-1000-doc.pdf in the uploads directory
when the 500 response is sent: the catch block at lines 168-170 deletes
req.file.path only in disk mode and never the memory-mode
materialization, contradicting the claim that every disk artifact is
deleted on every code path. -/
theorem upload_memory_error_leaks_temp :
    (uploadHandler (α := Nat) true (some ⟨"doc.pdf", "application/pdf", none⟩) 1000
        (RelayOutcome.rejected "relay failed") (fun _ => true) "unlink error" []).fs
      = ["temp-1000-doc.pdf"] ∧
    (uploadHandler (α := Nat) true (some ⟨"doc.pdf", "application/pdf", none⟩) 1000
        (RelayOutcome.rejected "relay failed") (fun _ => true) "unlink error" []).response.status
      = 500 := ⟨rfl, rfl⟩

/-- C3: evaluation of the handler at the failing input.  A memory-mode
request (file notes.txt, timestamp 42) whose relay loses the 180 s race
does receive the 500 response whose details field is
"Gemini API upload timeout", but the disk-resident temp file used for the
relay, temp-42-notes.txt, is not deleted: it remains in the uploads
directory, contradicting the claim's cleanup clause (the catch block
cleans up only in disk mode). -/
theorem upload_timeout_leaks_temp :
    (uploadHandler (α := Nat) true (some ⟨"notes.txt", "text/plain", none⟩) 42
        RelayOutcome.timeout (fun _ => true) "unlink error" []).response
      = ⟨500, Body.failJson "File upload failed" "Gemini API upload timeout" "memory"⟩ ∧
    (uploadHandler (α := Nat) true (some ⟨"notes.txt", "text/plain", none⟩) 42
        RelayOutcome.timeout (fun _ => true) "unlink error" []).fs
      = ["temp-42-notes.txt"] := ⟨rfl, rfl⟩

/-- C5: evaluation of the handler at the failing input.  A disk-mode
request whose relay call resolves successfully but whose temp-file
deletion throws receives a 500 failure response carrying the unlink error as
details, instead of the success response: the fs.unlinkSync at line 155
is inside the try block and unprotected, so its failure surfaces in the
client-visible result, contradicting the claim that cleanup failure is
only logged. -/
theorem cleanup_failure_masks_success :
    (uploadHandler (α := Nat) false
        (some ⟨"b.bin", "application/octet-stream", some "99-b.bin"⟩) 7
        (RelayOutcome.resolved 42) (fun _ => false)
        "EPERM: operation not permitted, unlink" ["99-b.bin"]).response
      = ⟨500, Body.failJson "File upload failed"
          "EPERM: operation not permitted, unlink" "disk"⟩ := rfl

/-- C7: a request with no file yields status 400 with body
\x7berror: "No file uploaded"\x7d, the relay call is never initiated, and
the uploads directory is unchanged (no temp file written), whatever the
storage mode, timestamp, relay oracle, unlink oracle and initial
directory contents. -/
theorem upload_no_file_400 {α : Type} (useMem : Bool) (ts : Nat) (relay : RelayOutcome α)
    (unlinkOk : String → Bool) (unlinkErrMsg : String) (fs0 : List String) :
    uploadHandler useMem none ts relay unlinkOk unlinkErrMsg fs0 =
      ⟨⟨400, Body.errJson "No file uploaded"⟩, fs0, false⟩ := rfl

/-- C8 counterexample: the claim asserts that every request whose relay
resolves before the timeout receives status 200; at this concrete input
the relay resolves with metadata 7, yet the temp-file unlink throws and
the handler answers 500, refuting the claim as stated. -/
theorem success_unlink_failure_cex :
    (uploadHandler (α := Nat) true (some ⟨"c.png", "image/png", none⟩) 9
        (RelayOutcome.resolved 7) (fun _ => false)
        "EACCES: permission denied" []).response.status = 500 := rfl

/-- C8 amended: for every request whose relay call resolves before the
180 s timeout and whose temp-file deletion succeeds, the response is
status 200 with message "File uploaded to Gemini Files API" and the
provider's metadata object unmodified. -/
theorem upload_success_response {α : Type} (useMem : Bool) (f : ReqFile) (ts : Nat)
    (md : α) (unlinkOk : String → Bool) (unlinkErrMsg : String) (fs0 : List String)
    (h : unlinkOk (tempPathOf useMem f ts) = true) :
    (uploadHandler useMem (some f) ts (RelayOutcome.resolved md) unlinkOk unlinkErrMsg
        fs0).response
      = ⟨200, Body.okJson "File uploaded to Gemini Files API" md⟩ := by
  simp [uploadHandler, h]

theorem upload_success_response_witness :
    (fun _ => true : String → Bool) (tempPathOf true ⟨"d.txt", "text/plain", none⟩ 3) = true ∧
    (uploadHandler true (some ⟨"d.txt", "text/plain", none⟩) 3
        (RelayOutcome.resolved (5 : Nat)) (fun _ => true) "unlink error" []).response
      = ⟨200, Body.okJson "File uploaded to Gemini Files API" 5⟩ :=
  ⟨rfl, upload_success_response true ⟨"d.txt", "text/plain", none⟩ 3 5
    (fun _ => true) "unlink error" [] rfl⟩

/-- C9: the receiver limits configured at lines 94-97 are 50 MiB
(52428800 bytes) per file and one file; a single-file request exceeding
the size limit is answered 400 with "Multer error: File too large", and a
request with more than one file (each within the size limit) is answered
400 with "Multer error: Too many files" — in both cases a structured
error naming the violated limit. -/
theorem receiver_limits (sizes : List Nat) (s1 : Nat) :
    uploadLimits.fileSize = 50 * 1024 * 1024 ∧ uploadLimits.files = 1 ∧
    (50 * 1024 * 1024 < s1 →
      adaptiveUploadResult Nat [s1]
        = some ⟨400, Body.errJson "Multer error: File too large"⟩) ∧
    (1 < sizes.length → (∀ s ∈ sizes, s ≤ 50 * 1024 * 1024) →
      adaptiveUploadResult Nat sizes
        = some ⟨400, Body.errJson "Multer error: Too many files"⟩) := by
  refine ⟨rfl, rfl, fun h => ?_, fun hlen _ => ?_⟩
  · simp [adaptiveUploadResult, multerCheck, uploadLimits, h, MulterError.message]
  · simp [adaptiveUploadResult, multerCheck, uploadLimits, hlen, MulterError.message]

theorem receiver_limits_witness :
    adaptiveUploadResult Nat [52428801]
      = some ⟨400, Body.errJson "Multer error: File too large"⟩ ∧
    adaptiveUploadResult Nat [1, 2]
      = some ⟨400, Body.errJson "Multer error: Too many files"⟩ :=
  ⟨(receiver_limits [1, 2] 52428801).2.2.1 (by norm_num),
    (receiver_limits [1, 2] 52428801).2.2.2 (by norm_num) (by decide)⟩

/-- C10 counterexample: the claim asserts that whenever the
Content-Length header is present but does not parse as a number the
parsed declared size is NaN; the empty header value "" does not parse as
a number (parseInt gives NaN), yet the truthiness test at line 89 treats
it as absent, so the declared size is 0, not NaN. -/
theorem empty_content_length_cex :
    parseIntJs "" = JsNum.nan ∧ declaredSize (some "") = JsNum.num 0 := ⟨rfl, rfl⟩

/-- C10 amended: for every request whose Content-Length header is
present, non-empty, and does not parse as a number, the parsed declared
size is NaN, the selector's size comparison against 15*1024*1024 is
false, and the selector's decision is determined by the memory usage
fraction alone: memory exactly when it is at most 0.8, never disk on
account of the declared size.  (A present but empty header value instead
yields declared size 0, with the same ratio-only decision.) -/
theorem nan_size_ratio_only (raw : String) (s : MemSample) (hraw : raw ≠ "")
    (hn : parseIntJs raw = JsNum.nan) :
    declaredSize (some raw) = JsNum.nan ∧
    jsGt (declaredSize (some raw)) (15 * 1024 * 1024) = false ∧
    shouldUseMemoryStorage (some s) (declaredSize (some raw)) =
      decide (memUsage s ≤ MEMORY_THRESHOLD) := by
  have hd : declaredSize (some raw) = JsNum.nan := by
    simp [declaredSize, hraw, hn]
  refine ⟨hd, by rw [hd]; rfl, ?_⟩
  rw [hd]
  by_cases h2 : memUsage s ≤ MEMORY_THRESHOLD <;>
    simp_all [shouldUseMemoryStorage, jsGt, not_le]

theorem nan_size_ratio_only_witness :
    "abc" ≠ "" ∧ parseIntJs "abc" = JsNum.nan ∧
    (declaredSize (some "abc") = JsNum.nan ∧
      jsGt (declaredSize (some "abc")) (15 * 1024 * 1024) = false ∧
      shouldUseMemoryStorage (some ⟨1, 2⟩) (declaredSize (some "abc")) =
        decide (memUsage ⟨1, 2⟩ ≤ MEMORY_THRESHOLD)) :=
  ⟨by decide, by rfl, nan_size_ratio_only "abc" ⟨1, 2⟩ (by decide) rfl⟩

end Thryx
